import Mathlib

/-!
Verification development for the voxel volume store of this repository.

The embedding models, in order:
- the integer vector / box geometry used by the storage layer (`Vector3i`, `Box3i`),
- the volume store `VoxelData` (src/storage/voxel_data.h) with its LOD maps,
  generator, modifier stack, stream and configuration flags,
- the block allocator `VoxelMemoryPool` (src/storage/voxel_memory_pool.h),
- the per-block streaming state machine of `VoxelLodTerrain`
  (src/terrain/voxel_lod_terrain.h).

The repository ships only headers under src/; wherever a function body is not
in src/, the corresponding definition carries a doc comment starting with
`Modelled from the spec:` and follows the specification's words.
-/

namespace GodotVoxel

/-- Integer 3-vector identifying voxels and blocks (engine type `Vector3i`). -/
@[ext]
structure Vector3i where
  x : Int
  y : Int
  z : Int
deriving DecidableEq

instance : Add Vector3i := ⟨fun a b => ⟨a.x + b.x, a.y + b.y, a.z + b.z⟩⟩
instance : Sub Vector3i := ⟨fun a b => ⟨a.x - b.x, a.y - b.y, a.z - b.z⟩⟩

/-- Componentwise floor division, as the engine's `Vector3i::floordiv`. -/
def Vector3i.fdivc (v : Vector3i) (d : Int) : Vector3i :=
  ⟨v.x.fdiv d, v.y.fdiv d, v.z.fdiv d⟩

/-- Axis-aligned box of voxels or blocks: origin and size (engine type `Box3i`). -/
@[ext]
structure Box3i where
  pos : Vector3i
  size : Vector3i
deriving DecidableEq

/-- The default-constructed `Box3i()`: zero origin, zero size. -/
def Box3i.empty : Box3i := ⟨⟨0, 0, 0⟩, ⟨0, 0, 0⟩⟩

/-- Point membership test of a box (engine `Box3i::contains`). -/
def Box3i.contains (b : Box3i) (p : Vector3i) : Bool :=
  decide (b.pos.x ≤ p.x ∧ p.x < b.pos.x + b.size.x ∧
          b.pos.y ≤ p.y ∧ p.y < b.pos.y + b.size.y ∧
          b.pos.z ≤ p.z ∧ p.z < b.pos.z + b.size.z)

/-- A box is empty when some size component is non-positive. -/
def Box3i.is_empty (b : Box3i) : Bool :=
  decide (b.size.x ≤ 0 ∨ b.size.y ≤ 0 ∨ b.size.z ≤ 0)

/-- Intersection with a limit box (engine `Box3i::clipped`); sizes are clamped
to zero so the result of disjoint boxes is empty. -/
def Box3i.clipped (b lim : Box3i) : Box3i :=
  ⟨⟨max b.pos.x lim.pos.x, max b.pos.y lim.pos.y, max b.pos.z lim.pos.z⟩,
   ⟨max (min (b.pos.x + b.size.x) (lim.pos.x + lim.size.x) - max b.pos.x lim.pos.x) 0,
    max (min (b.pos.y + b.size.y) (lim.pos.y + lim.size.y) - max b.pos.y lim.pos.y) 0,
    max (min (b.pos.z + b.size.z) (lim.pos.z + lim.size.z) - max b.pos.z lim.pos.z) 0⟩⟩

/-- Covering box in downscaled (block) coordinates (engine `Box3i::downscaled`):
floor-divides the origin and the inclusive maximum. -/
def Box3i.downscaled (b : Box3i) (step : Int) : Box3i :=
  let p := b.pos.fdivc step
  let mx := (b.pos + b.size - ⟨1, 1, 1⟩).fdivc step
  ⟨p, mx - p + ⟨1, 1, 1⟩⟩

/-- Enumeration of the cells of a box, z-major then x then y, mirroring the
engine's `Box3i::for_each_cell_zxy` iteration order. -/
def Box3i.cellList (b : Box3i) : List Vector3i :=
  (List.range b.size.z.toNat).flatMap fun (iz : Nat) =>
    (List.range b.size.x.toNat).flatMap fun (ix : Nat) =>
      List.map (fun (iy : Nat) => Vector3i.mk (b.pos.x + (ix : Int)) (b.pos.y + (iy : Int)) (b.pos.z + (iz : Int)))
        (List.range b.size.y.toNat)

/-! ## Voxel buffers, blocks and per-LOD maps -/

/-- A dense voxel buffer over one block: its cubic size and, per channel, the
voxel values indexed by block-local position (engine `VoxelBufferInternal`,
values modelled as integers). -/
structure VoxelBufferInternal where
  size : Vector3i
  data : Nat → Vector3i → Int

/-- A buffer of the given cubic edge length filled with the default value 0. -/
def defaultBuffer (bs : Int) : VoxelBufferInternal :=
  ⟨⟨bs, bs, bs⟩, fun _ _ => 0⟩

/-- One entry of a LOD map (engine `VoxelDataBlock`): an optional buffer
(`none` models the *empty-known* state), the `edited` flag and the
"needs LOD update" flag. -/
structure VoxelDataBlock where
  voxels : Option VoxelBufferInternal
  edited : Bool
  needs_lod : Bool

/-- Sparse map from block coordinate to block at one LOD
(engine `VoxelDataMap`): block size as a power of two, plus the entries.
An absent entry (`none`) is the *absent* block state. -/
structure VoxelDataMap where
  block_size_po2 : Nat
  blocks : Vector3i → Option VoxelDataBlock

/-- Edge length of a block in voxels (`VoxelDataMap::get_block_size`). -/
def VoxelDataMap.block_size (m : VoxelDataMap) : Int :=
  (2 : Int) ^ m.block_size_po2

/-- A fresh LOD map with the engine's default block size of 16 voxels. -/
def VoxelDataMap.empty : VoxelDataMap :=
  ⟨4, fun _ => none⟩

/-- The cube `⟨n, n, n⟩`, the expected size vector of a block buffer. -/
def cubeV (n : Int) : Vector3i := ⟨n, n, n⟩

/-- Voxel origin of a block (block coordinate scaled by the block size). -/
def blockOrigin (bs : Int) (bpos : Vector3i) : Vector3i :=
  ⟨bpos.x * bs, bpos.y * bs, bpos.z * bs⟩

/-- The box of voxels covered by one block. -/
def blockVoxelBox (bs : Int) (bpos : Vector3i) : Box3i :=
  ⟨blockOrigin bs bpos, cubeV bs⟩

/-! ## Generator, modifiers and stream -/

/-- Modelled from the spec: the generator contract (§6) — a pure function of
voxel coordinates and fixed parameters, per channel
(`VoxelGenerator::generate_block`, whose body is not under src/). -/
structure VoxelGenerator where
  value : Nat → Vector3i → Int

/-- Filling a buffer from the generator at a block origin: every channel of
every voxel receives the generator's pure value at its world position. -/
def VoxelGenerator.generate_block (g : VoxelGenerator) (voxels : VoxelBufferInternal)
    (origin : Vector3i) : VoxelBufferInternal :=
  ⟨voxels.size, fun ch lp => g.value ch (origin + lp)⟩

/-- Modelled from the spec: one modifier of the modifier stack (§6) — reads and
may overwrite each voxel in place as a function of channel, world position and
the previous value (`VoxelModifier::apply` is not under src/). -/
structure VoxelModifier where
  apply : Nat → Vector3i → Int → Int

/-- Applying the modifier stack in its configured order over a base value. -/
def applyModifiers (mods : List VoxelModifier) (ch : Nat) (pos : Vector3i) (v : Int) : Int :=
  mods.foldl (fun acc m => m.apply ch pos acc) v

/-- Modelled from the spec: the persistence stream contract (§6), reduced to
its load capability; only its identity matters to the claims verified here
(`VoxelStream` is an abstract interface in src/streams/voxel_stream.h). -/
structure VoxelStream where
  load : Vector3i → Nat → Option VoxelBufferInternal

/-! ## The volume store `VoxelData` -/

/-- The volume store (src/storage/voxel_data.h): per-LOD sparse maps, bounds,
LOD count, streaming flag, modifier stack, generator and stream. The fixed
array `_lods[MAX_LOD]` is modelled as a total function from LOD index. -/
structure VoxelData where
  lods : Nat → VoxelDataMap
  bounds_in_voxels : Box3i
  lod_count : Nat
  streaming_enabled : Bool
  modifiers : List VoxelModifier
  generator : Option VoxelGenerator
  stream : Option VoxelStream

/-- A freshly constructed `VoxelData`: the member initializers in
src/storage/voxel_data.h give `_lod_count = 1` (line 297) and
`_streaming_enabled = true` (line 304); maps start empty, no generator,
stream or modifiers. The headers do not specify the default bounds; the
claims verified here configure bounds explicitly before using them. -/
def VoxelData.new : VoxelData :=
  { lods := fun _ => VoxelDataMap.empty
    bounds_in_voxels := Box3i.empty
    lod_count := 1
    streaming_enabled := true
    modifiers := []
    generator := none
    stream := none }

/-- `VoxelData::get_lod_count` (src/storage/voxel_data.h:44-47). -/
def VoxelData.get_lod_count (d : VoxelData) : Nat := d.lod_count

/-- `VoxelData::is_streaming_enabled` (src/storage/voxel_data.h:80-82). -/
def VoxelData.is_streaming_enabled (d : VoxelData) : Bool := d.streaming_enabled

/-- `VoxelData::set_streaming_enabled` (declared at src/storage/voxel_data.h:78). -/
def VoxelData.set_streaming_enabled (d : VoxelData) (enabled : Bool) : VoxelData :=
  { d with streaming_enabled := enabled }

/-- `VoxelData::get_bounds` (src/storage/voxel_data.h:51-54). -/
def VoxelData.get_bounds (d : VoxelData) : Box3i := d.bounds_in_voxels

/-- Modelled from the spec: `VoxelData::reset_maps` — "Clears voxel data.
Keeps modifiers, generator and settings." (src/storage/voxel_data.h:41-42);
its body is not under src/. Every block entry at every LOD is removed and
every other member is untouched. -/
def VoxelData.reset_maps (d : VoxelData) : VoxelData :=
  { d with lods := fun i => { d.lods i with blocks := fun _ => none } }

/-- Modelled from the spec: `VoxelData::set_bounds` — configuration setter
(§4.1: "changing `lod_count` or `bounds` destructively resets storage"). -/
def VoxelData.set_bounds (d : VoxelData) (bounds : Box3i) : VoxelData :=
  { d.reset_maps with bounds_in_voxels := bounds }

/-- `VoxelData::voxel_to_block` (src/storage/voxel_data.h:35-37): floor
division of a voxel position by the LOD-0 block size. -/
def VoxelData.voxel_to_block (d : VoxelData) (pos : Vector3i) : Vector3i :=
  pos.fdivc (d.lods 0).block_size

/-- Inserting (or replacing) one block entry at one LOD. -/
def VoxelData.setBlock (d : VoxelData) (lod_index : Nat) (bpos : Vector3i)
    (blk : VoxelDataBlock) : VoxelData :=
  { d with lods := fun i =>
      if i = lod_index then
        { d.lods i with blocks := fun p => if p = bpos then some blk else (d.lods i).blocks p }
      else d.lods i }

/-- Modelled from the spec: `VoxelData::try_set_block_buffer` — its body is not
under src/; the contract comment (src/storage/voxel_data.h:175-182) says: if
the buffer has a different size than expected, return false and do not set the
data; if the block already exists it is not overwritten but true is still
returned; otherwise insert and return true. -/
def VoxelData.try_set_block_buffer (d : VoxelData) (block_position : Vector3i)
    (lod_index : Nat) (buffer : VoxelBufferInternal) (edited : Bool) : Bool × VoxelData :=
  if buffer.size = cubeV (d.lods lod_index).block_size then
    match (d.lods lod_index).blocks block_position with
    | some _ => (true, d)
    | none => (true, d.setBlock lod_index block_position ⟨some buffer, edited, false⟩)
  else (false, d)

/-- Modelled from the spec: `VoxelData::get_missing_blocks` (positions
overload, src/storage/voxel_data.h:239-240) — §4.1: "set difference between
requested coordinates and resident ones"; a position is reported missing
exactly when no entry exists for it. -/
def VoxelData.get_missing_blocks (d : VoxelData) (block_positions : List Vector3i)
    (lod_index : Nat) : List Vector3i :=
  block_positions.filter fun p => ((d.lods lod_index).blocks p).isNone

/-- Modelled from the spec: `VoxelData::get_voxel` — its body is not under
src/. Out-of-bounds reads return the default; a present buffer is read at the
block-local position; an *empty-known* block reads as the default; an absent
block "falls through to generator/modifier evaluation without caching" (§3),
or the default when no generator is configured. -/
def VoxelData.get_voxel (d : VoxelData) (pos : Vector3i) (channel_index : Nat)
    (defval : Int) : Int :=
  if d.bounds_in_voxels.contains pos = true then
    match (d.lods 0).blocks (d.voxel_to_block pos) with
    | some blk =>
      match blk.voxels with
      | some buf =>
        buf.data channel_index (pos - blockOrigin (d.lods 0).block_size (d.voxel_to_block pos))
      | none => defval
    | none =>
      match d.generator with
      | some g => applyModifiers d.modifiers channel_index pos (g.value channel_index pos)
      | none => defval
  else defval

/-- Modelled from the spec: `VoxelData::try_set_voxel` — its body is not under
src/. §4.1: "`set_voxel(value, pos, channel) -> bool` (fails if block absent
and area not pre-generated)", combined with the `_streaming_enabled` comment
(src/storage/voxel_data.h:299-304): when streaming is enabled an absent block
has unknown content and the write fails; when streaming is disabled an absent
block is obtainable from the generator and modifiers, so it is synthesized
(generator output, then the modifier stack in order, per §4.1's generation
fallback policy), inserted, and the voxel is written. A write marks the block
edited. -/
def VoxelData.try_set_voxel (d : VoxelData) (value : Int) (pos : Vector3i)
    (channel_index : Nat) : Bool × VoxelData :=
  let bs := (d.lods 0).block_size
  let bpos := d.voxel_to_block pos
  let origin := blockOrigin bs bpos
  let lp := pos - origin
  let setIn : VoxelBufferInternal → VoxelBufferInternal := fun buf =>
    ⟨buf.size, fun ch q => if ch = channel_index ∧ q = lp then value else buf.data ch q⟩
  match (d.lods 0).blocks bpos with
  | some blk =>
    let buf := match blk.voxels with
      | some v => v
      | none => defaultBuffer bs
    (true, d.setBlock 0 bpos ⟨some (setIn buf), true, blk.needs_lod⟩)
  | none =>
    if d.streaming_enabled = true then (false, d)
    else
      let base := match d.generator with
        | some g => g.generate_block (defaultBuffer bs) origin
        | none => defaultBuffer bs
      let modded : VoxelBufferInternal :=
        ⟨base.size, fun ch q => applyModifiers d.modifiers ch (origin + q) (base.data ch q)⟩
      (true, d.setBlock 0 bpos ⟨some (setIn modded), true, false⟩)

/-! ## Box-shaped write transactions (`write_box`) -/

/-- Observable events of a `write_box` run: lock usage on a LOD map, block
synthesis through the generation callback, and the caller's action applied at
one voxel position. -/
inductive WEvent where
  | lockWrite (lod_index : Nat)
  | unlockWrite (lod_index : Nat)
  | genBlock (bpos : Vector3i)
  | actionAt (pos : Vector3i)
deriving DecidableEq

/-- Applying the caller's action to every voxel of one block's buffer that
lies in the written box (part of the map-level `write_box`). -/
def writeBuf (bs : Int) (voxel_box : Box3i) (channel : Nat)
    (action : Vector3i → Int → Int) (bpos : Vector3i)
    (v : VoxelBufferInternal) : VoxelBufferInternal :=
  let origin := blockOrigin bs bpos
  let subBox := voxel_box.clipped (blockVoxelBox bs bpos)
  ⟨v.size, fun ch lp =>
    if ch = channel ∧ subBox.contains (origin + lp) = true
    then action (origin + lp) (v.data ch lp)
    else v.data ch lp⟩

/-- The new content of one touched block: an absent block (or one with no
buffer) is first synthesized through `gen_func`, then the caller's action is
applied to every voxel of the block that lies in the written box. -/
def writeBlockResult (bs : Int) (voxel_box : Box3i) (channel : Nat)
    (action : Vector3i → Int → Int)
    (gen_func : VoxelBufferInternal → Vector3i → VoxelBufferInternal)
    (blk : Option VoxelDataBlock) (bpos : Vector3i) : VoxelDataBlock :=
  match blk with
  | some b =>
    match b.voxels with
    | some v => { b with voxels := some (writeBuf bs voxel_box channel action bpos v) }
    | none =>
      { b with voxels := some (writeBuf bs voxel_box channel action bpos
          (gen_func (defaultBuffer bs) (blockOrigin bs bpos))) }
  | none =>
    ⟨some (writeBuf bs voxel_box channel action bpos
       (gen_func (defaultBuffer bs) (blockOrigin bs bpos))), false, false⟩

/-- The events contributed by one touched block: a synthesis event when it had
no buffer, then one action event per voxel of the block inside the box. -/
def writeBlockEvents (bs : Int) (voxel_box : Box3i)
    (blk : Option VoxelDataBlock) (bpos : Vector3i) : List WEvent :=
  let subBox := voxel_box.clipped (blockVoxelBox bs bpos)
  let actionEvs := subBox.cellList.map WEvent.actionAt
  match blk with
  | some b =>
    match b.voxels with
    | some _ => actionEvs
    | none => WEvent.genBlock bpos :: actionEvs
  | none => WEvent.genBlock bpos :: actionEvs

/-- Modelled from the spec: `VoxelDataMap::write_box` (invoked by
`VoxelData::write_box`, src/storage/voxel_data.h:122; the map class is not
under src/) — §4.1: "for every touched block, if absent, synthesizes it first
…, and applies `action` voxel-by-voxel". The touched blocks are the cells of
the written box downscaled to block coordinates; each touched block's entry is
replaced by `writeBlockResult` and contributes `writeBlockEvents`. -/
def VoxelDataMap.write_box (m : VoxelDataMap) (voxel_box : Box3i) (channel : Nat)
    (action : Vector3i → Int → Int)
    (gen_func : VoxelBufferInternal → Vector3i → VoxelBufferInternal) :
    VoxelDataMap × List WEvent :=
  let bs : Int := m.block_size
  let block_box := voxel_box.downscaled bs
  ({ m with blocks := fun p =>
      if block_box.contains p = true then
        some (writeBlockResult bs voxel_box channel action gen_func (m.blocks p) p)
      else m.blocks p },
   block_box.cellList.flatMap fun bpos =>
     writeBlockEvents bs voxel_box (m.blocks bpos) bpos)

/-- Modelled from the spec: `VoxelData::is_area_loaded` (declared at
src/storage/voxel_data.h:105; its body is not under src/) — §4.1: the edit
"fails if any touched block in the area is not resident", combined with the
`_streaming_enabled` comment (src/storage/voxel_data.h:299-304): when
streaming is disabled, a block that is not stored is obtainable from the
generator and modifiers, so every area counts as loaded; when streaming is
enabled, every block of the area must be resident at LOD 0. Callers pass
boxes already clipped to the bounds (as `write_box` does). -/
def VoxelData.is_area_loaded (d : VoxelData) (p_voxels_box : Box3i) : Bool :=
  if d.streaming_enabled = false then true
  else
    ((p_voxels_box.downscaled (d.lods 0).block_size).cellList).all
      fun bpos => ((d.lods 0).blocks bpos).isSome

/-- The generation callback `write_box` passes to the map-level write
(src/storage/voxel_data.h:123-128): it invokes the generator, when valid, and
nothing else — in particular it does not apply the modifier stack. -/
def VoxelData.genFunc (d : VoxelData) :
    VoxelBufferInternal → Vector3i → VoxelBufferInternal :=
  fun voxels pos =>
    match d.generator with
    | some g => g.generate_block voxels pos
    | none => voxels

/-- Embedding of `VoxelData::write_box` (src/storage/voxel_data.h:111-131):
clip the box to the bounds; cancel, returning `Box3i()`, when the area is not
loaded; otherwise take the LOD-0 write lock, run the map-level write with the
generation callback `genFunc`, and return the clipped box. The result also
carries the event trace. -/
def VoxelData.write_box (d : VoxelData) (p_voxel_box : Box3i) (channel_index : Nat)
    (action : Vector3i → Int → Int) : Box3i × VoxelData × List WEvent :=
  let voxel_box := p_voxel_box.clipped d.get_bounds
  if d.is_area_loaded voxel_box = false then (Box3i.empty, d, [])
  else
    let r := (d.lods 0).write_box voxel_box channel_index action d.genFunc
    (voxel_box,
     { d with lods := fun i => if i = 0 then r.1 else d.lods i },
     WEvent.lockWrite 0 :: (r.2 ++ [WEvent.unlockWrite 0]))

/-- The value stored for a voxel in the LOD-0 map, when its block is resident
and holds a buffer. -/
def VoxelData.storedValue (d : VoxelData) (pos : Vector3i) (ch : Nat) : Option Int :=
  match (d.lods 0).blocks (d.voxel_to_block pos) with
  | some blk =>
    match blk.voxels with
    | some buf =>
      some (buf.data ch (pos - blockOrigin (d.lods 0).block_size (d.voxel_to_block pos)))
    | none => none
  | none => none

/-! ## The block allocator `VoxelMemoryPool` -/

/-- Modelled from the spec: the size-classed recycling pool (§4.2;
src/storage/voxel_memory_pool.h declares `allocate`, `recycle`,
`debug_get_used_blocks` and the `_used_blocks` counter, but their bodies are
not under src/). Blocks are identified by the numbers handed out by a fresh
allocation counter; one free list is kept per size class, and the live
allocation counter `used_blocks` mirrors `_used_blocks`. -/
structure VoxelMemoryPool where
  pools : List (Nat × List Nat)
  next_id : Nat
  used_blocks : Nat
deriving DecidableEq

/-- The free list for one size class (empty when none was created yet). -/
def poolsGet (ps : List (Nat × List Nat)) (size : Nat) : List Nat :=
  (ps.lookup size).getD []

/-- Replacing the free list of one size class. -/
def poolsSet (ps : List (Nat × List Nat)) (size : Nat) (l : List Nat) :
    List (Nat × List Nat) :=
  (size, l) :: ps.eraseP (fun e => e.1 == size)

/-- The pool singleton right after `create_singleton`: no free lists, no live
allocations. -/
def VoxelMemoryPool.create : VoxelMemoryPool := ⟨[], 0, 0⟩

/-- Modelled from the spec: `VoxelMemoryPool::allocate` — "pops from the
matching free-list or allocates fresh" (§4.2) and counts one more live
allocation. Returns the block and the new pool state. -/
def VoxelMemoryPool.allocate (p : VoxelMemoryPool) (size : Nat) : Nat × VoxelMemoryPool :=
  match poolsGet p.pools size with
  | [] => (p.next_id, ⟨p.pools, p.next_id + 1, p.used_blocks + 1⟩)
  | b :: rest => (b, ⟨poolsSet p.pools size rest, p.next_id, p.used_blocks + 1⟩)

/-- Modelled from the spec: `VoxelMemoryPool::recycle` — "pushes back rather
than freeing" (§4.2) and counts one less live allocation. -/
def VoxelMemoryPool.recycle (p : VoxelMemoryPool) (block : Nat) (size : Nat) :
    VoxelMemoryPool :=
  ⟨poolsSet p.pools size (block :: poolsGet p.pools size), p.next_id, p.used_blocks - 1⟩

/-- `VoxelMemoryPool::debug_get_used_blocks`
(src/storage/voxel_memory_pool.h:31): the diagnostic live-allocation counter. -/
def VoxelMemoryPool.debug_get_used_blocks (p : VoxelMemoryPool) : Nat := p.used_blocks

/-- One call of a client of the allocator. -/
inductive PoolOp where
  | alloc (size : Nat)
  | recycle (block : Nat) (size : Nat)
deriving DecidableEq

/-- Runs a sequence of allocator calls while tracking, as ghost state, the
outstanding blocks with their allocation sizes. A `recycle` is only accepted
when it returns an outstanding block with the same size as the `allocate`
that produced it (the claim's precondition; §4.2 makes other recycles
programming errors); otherwise the run is rejected with `none`. -/
def runOpsChecked : List PoolOp → VoxelMemoryPool → List (Nat × Nat) →
    Option (VoxelMemoryPool × List (Nat × Nat))
  | [], p, live => some (p, live)
  | PoolOp.alloc s :: ops, p, live =>
    runOpsChecked ops (p.allocate s).2 (((p.allocate s).1, s) :: live)
  | PoolOp.recycle b s :: ops, p, live =>
    if (b, s) ∈ live then runOpsChecked ops (p.recycle b s) (live.erase (b, s))
    else none

/-! ## The LOD streaming controller's block state machine -/

/-- `VoxelLodTerrain::BlockState` (src/terrain/voxel_lod_terrain.h:23-29):
the five per-(block, LOD) streaming states. -/
inductive BlockState where
  | block_none
  | block_load
  | block_update_not_sent
  | block_update_sent
  | block_idle
deriving DecidableEq

/-- The triggers of the streaming controller (§4.3): coverage by a new octree
leaf, completion of the load, a data change from `mark_area_modified`,
submission of the update to the mesher, receipt of the mesh output, and
eviction when no leaf covers the block any more. -/
inductive LodEvent where
  | cover
  | dataReady
  | dataChanged
  | meshSent
  | meshReceived
  | evict
deriving DecidableEq

/-- Modelled from the spec: the transition function of the streaming
controller (§4.3 "Transition triggers"; the controller's body is not under
src/). `none` means the event does not apply in that state. A leaf whose
underlying data changes moves to `UPDATE_NOT_SENT` whether it was waiting for
a sent update or already idle; eviction returns any state to `NONE`. -/
def lodStep : BlockState → LodEvent → Option BlockState
  | BlockState.block_none, LodEvent.cover => some BlockState.block_load
  | BlockState.block_load, LodEvent.dataReady => some BlockState.block_update_not_sent
  | BlockState.block_update_not_sent, LodEvent.meshSent => some BlockState.block_update_sent
  | BlockState.block_update_sent, LodEvent.dataChanged => some BlockState.block_update_not_sent
  | BlockState.block_update_sent, LodEvent.meshReceived => some BlockState.block_idle
  | BlockState.block_idle, LodEvent.dataChanged => some BlockState.block_update_not_sent
  | _, LodEvent.evict => some BlockState.block_none
  | _, _ => none

/-- The transition relation exactly as the claim states it:
`NONE → LOADING → {UPDATE_PENDING ⇄ UPDATE_SENT} → IDLE`, plus `NONE`
reachable from any state on eviction, and nothing else. -/
def claimedAllowed : BlockState → BlockState → Bool
  | BlockState.block_none, BlockState.block_load => true
  | BlockState.block_load, BlockState.block_update_not_sent => true
  | BlockState.block_update_not_sent, BlockState.block_update_sent => true
  | BlockState.block_update_sent, BlockState.block_update_not_sent => true
  | BlockState.block_update_sent, BlockState.block_idle => true
  | _, BlockState.block_none => true
  | _, _ => false

/-- The claimed relation amended with the one further transition the
controller takes: `IDLE → UPDATE_PENDING` when the block's data changes. -/
def allowedAmended (s t : BlockState) : Bool :=
  claimedAllowed s t ||
    (s == BlockState.block_idle && t == BlockState.block_update_not_sent)

/-! ## Concrete sample stores used by counterexamples and witnesses -/

/-- The bounds used by the concrete scenarios: `[0,0,0]–[256,256,256]`. -/
def sampleBounds : Box3i := ⟨⟨0, 0, 0⟩, ⟨256, 256, 256⟩⟩

/-- A non-streaming store with the sample bounds, no blocks, no generator. -/
def voxelDataC1 : VoxelData :=
  (VoxelData.new.set_bounds sampleBounds).set_streaming_enabled false

/-- The unit box at the origin. -/
def boxC1 : Box3i := ⟨⟨0, 0, 0⟩, ⟨1, 1, 1⟩⟩

/-- A streaming store with the sample bounds and no resident blocks. -/
def voxelDataC1w : VoxelData := VoxelData.new.set_bounds sampleBounds

/-- A non-streaming store with the sample bounds, used for the clipping
witness. -/
def voxelDataC2 : VoxelData :=
  (VoxelData.new.set_bounds sampleBounds).set_streaming_enabled false

/-- A box reaching one voxel outside the bounds on the negative x side. -/
def boxC2 : Box3i := ⟨⟨-1, 0, 0⟩, ⟨2, 1, 1⟩⟩

/-- A constant generator producing value 7 on every channel. -/
def genC3 : VoxelGenerator := ⟨fun _ _ => 7⟩

/-- A modifier adding 1 to every voxel value. -/
def modC3 : VoxelModifier := ⟨fun _ _ v => v + 1⟩

/-- A non-streaming store with the sample bounds, the constant generator and
one additive modifier configured. -/
def voxelDataC3 : VoxelData :=
  { (VoxelData.new.set_bounds sampleBounds).set_streaming_enabled false with
    generator := some genC3
    modifiers := [modC3] }

/-- The unit box at the origin, written by the synthesis scenario. -/
def boxC3 : Box3i := ⟨⟨0, 0, 0⟩, ⟨1, 1, 1⟩⟩

/-- A second buffer, distinguishable from `defaultBuffer 16` by its content. -/
def bufferC4b : VoxelBufferInternal := ⟨⟨16, 16, 16⟩, fun _ _ => 7⟩

/-- A buffer of the wrong size (8 instead of the configured 16). -/
def bufferC5 : VoxelBufferInternal := ⟨⟨8, 8, 8⟩, fun _ _ => 0⟩

/-- The scenario store of the spec: sample bounds, LOD count 1, no generator,
no stream; every other member keeps its constructed default. -/
def voxelDataC6 : VoxelData := VoxelData.new.set_bounds sampleBounds

/-- The scenario store after additionally disabling streaming. -/
def voxelDataC6s : VoxelData := voxelDataC6.set_streaming_enabled false

/-- The allocator call sequence of the round-trip witness. -/
def opsC7 : List PoolOp := [PoolOp.alloc 32, PoolOp.alloc 32, PoolOp.recycle 0 32]

/-! # Theorems -/

/-! ## Geometry lemmas -/

@[simp]
theorem Vector3i.add_x (a b : Vector3i) : (a + b).x = a.x + b.x := rfl

@[simp]
theorem Vector3i.add_y (a b : Vector3i) : (a + b).y = a.y + b.y := rfl

@[simp]
theorem Vector3i.add_z (a b : Vector3i) : (a + b).z = a.z + b.z := rfl

@[simp]
theorem Vector3i.sub_x (a b : Vector3i) : (a - b).x = a.x - b.x := rfl

@[simp]
theorem Vector3i.sub_y (a b : Vector3i) : (a - b).y = a.y - b.y := rfl

@[simp]
theorem Vector3i.sub_z (a b : Vector3i) : (a - b).z = a.z - b.z := rfl

@[simp]
theorem Vector3i.add_sub_cancel (a b : Vector3i) : a + (b - a) = b := by
  ext <;> simp

theorem Box3i.contains_iff (b : Box3i) (p : Vector3i) :
    b.contains p = true ↔
      (b.pos.x ≤ p.x ∧ p.x < b.pos.x + b.size.x ∧
       b.pos.y ≤ p.y ∧ p.y < b.pos.y + b.size.y ∧
       b.pos.z ≤ p.z ∧ p.z < b.pos.z + b.size.z) := by
  simp [Box3i.contains]

theorem Box3i.mem_cellList (b : Box3i) (p : Vector3i) :
    p ∈ b.cellList ↔ b.contains p = true := by
  rw [Box3i.contains_iff]
  unfold Box3i.cellList
  constructor
  · intro h
    rw [List.mem_flatMap] at h
    obtain ⟨iz, hiz, h⟩ := h
    rw [List.mem_range] at hiz
    rw [List.mem_flatMap] at h
    obtain ⟨ix, hix, h⟩ := h
    rw [List.mem_range] at hix
    rw [List.mem_map] at h
    obtain ⟨iy, hiy, heq⟩ := h
    rw [List.mem_range] at hiy
    have hx := congrArg Vector3i.x heq
    have hy := congrArg Vector3i.y heq
    have hz := congrArg Vector3i.z heq
    dsimp only at hx hy hz
    omega
  · intro h
    rw [List.mem_flatMap]
    refine ⟨(p.z - b.pos.z).toNat, List.mem_range.mpr (by omega), ?_⟩
    rw [List.mem_flatMap]
    refine ⟨(p.x - b.pos.x).toNat, List.mem_range.mpr (by omega), ?_⟩
    rw [List.mem_map]
    refine ⟨(p.y - b.pos.y).toNat, List.mem_range.mpr (by omega), ?_⟩
    ext <;> dsimp only <;> omega

theorem Box3i.contains_clipped_iff (b lim : Box3i) (p : Vector3i) :
    (b.clipped lim).contains p = true ↔
      (b.contains p = true ∧ lim.contains p = true) := by
  simp only [Box3i.contains_iff, Box3i.clipped]
  omega

/-! ## Defaults and configuration (claims C10, C9) -/

/-- C10: a freshly constructed `VoxelData` has `lod_count = 1` and streaming
enabled before any configuration setter is called, so by default absent blocks
are treated as not-yet-loaded rather than generatable. -/
theorem claim_C10 :
    VoxelData.new.get_lod_count = 1 ∧ VoxelData.new.is_streaming_enabled = true :=
  ⟨rfl, rfl⟩

/-- C9: `reset_maps` removes every block entry at every LOD level but leaves
the generator, the persistence stream, the modifier stack, the bounds, the LOD
count and the streaming-enabled setting unchanged. -/
theorem claim_C9 (d : VoxelData) (bpos : Vector3i) (lod_index : Nat) :
    (d.reset_maps.lods lod_index).blocks bpos = none ∧
    d.reset_maps.generator = d.generator ∧
    d.reset_maps.stream = d.stream ∧
    d.reset_maps.modifiers = d.modifiers ∧
    d.reset_maps.bounds_in_voxels = d.bounds_in_voxels ∧
    d.reset_maps.lod_count = d.lod_count ∧
    d.reset_maps.streaming_enabled = d.streaming_enabled :=
  ⟨rfl, rfl, rfl, rfl, rfl, rfl, rfl⟩

/-! ## The streaming state machine (claim C8) -/

/-- C8, counterexample: the controller moves an `IDLE` block whose data
changes to `UPDATE_PENDING` (`BLOCK_UPDATE_NOT_SENT`), a transition the
claimed relation does not allow, so "no other transition ever occurs" fails. -/
theorem claim_C8_counterexample :
    lodStep BlockState.block_idle LodEvent.dataChanged =
      some BlockState.block_update_not_sent ∧
    claimedAllowed BlockState.block_idle BlockState.block_update_not_sent = false :=
  ⟨rfl, rfl⟩

/-- C8, amended: the per-(block, LOD) state is always one of the five enum
values, and every transition of the streaming controller follows
`NONE → LOADING → {UPDATE_PENDING ⇄ UPDATE_SENT} → IDLE`, with `NONE`
reachable from any state on eviction and — the amendment — `UPDATE_PENDING`
also reachable from `IDLE` when the block's underlying data changes. -/
theorem claim_C8_amended :
    (∀ s : BlockState,
      s = BlockState.block_none ∨ s = BlockState.block_load ∨
      s = BlockState.block_update_not_sent ∨ s = BlockState.block_update_sent ∨
      s = BlockState.block_idle) ∧
    (∀ s e t, lodStep s e = some t → allowedAmended s t = true) := by
  constructor
  · intro s
    cases s <;> simp
  · intro s e t h
    cases s <;> cases e <;> simp only [lodStep] at h <;>
      first
        | (rw [Option.some_inj] at h; subst h; rfl)
        | exact absurd h (by simp)

/-- C8, witness: the amended transition relation at a concrete step,
`NONE → LOADING` on coverage. -/
theorem claim_C8_witness :
    lodStep BlockState.block_none LodEvent.cover = some BlockState.block_load ∧
    allowedAmended BlockState.block_none BlockState.block_load = true :=
  ⟨rfl, claim_C8_amended.2 BlockState.block_none LodEvent.cover BlockState.block_load rfl⟩

/-! ## The block allocator (claim C7) -/

theorem VoxelMemoryPool.allocate_used (p : VoxelMemoryPool) (s : Nat) :
    (p.allocate s).2.used_blocks = p.used_blocks + 1 := by
  cases hpg : poolsGet p.pools s <;> simp [VoxelMemoryPool.allocate, hpg]

/-- C7: over every accepted sequence of `allocate`/`recycle` calls in which
each recycle returns an outstanding block with its allocation size, the
diagnostic counter `debug_get_used_blocks` equals the number of outstanding
blocks (the length of the ghost live list carried by `runOpsChecked`). -/
theorem claim_C7 (ops : List PoolOp) (p : VoxelMemoryPool) (live : List (Nat × Nat))
    (r : VoxelMemoryPool × List (Nat × Nat))
    (hinv : p.debug_get_used_blocks = live.length)
    (hrun : runOpsChecked ops p live = some r) :
    r.1.debug_get_used_blocks = r.2.length := by
  induction ops generalizing p live with
  | nil =>
    rw [runOpsChecked] at hrun
    rw [Option.some_inj] at hrun
    subst hrun
    exact hinv
  | cons op ops ih =>
    cases op with
    | alloc s =>
      rw [runOpsChecked] at hrun
      refine ih (p.allocate s).2 (((p.allocate s).1, s) :: live) ?_ hrun
      simp only [VoxelMemoryPool.debug_get_used_blocks, List.length_cons] at hinv ⊢
      rw [VoxelMemoryPool.allocate_used, hinv]
    | recycle b s =>
      rw [runOpsChecked] at hrun
      by_cases hm : (b, s) ∈ live
      · rw [if_pos hm] at hrun
        refine ih (p.recycle b s) (live.erase (b, s)) ?_ hrun
        have hlen : (live.erase (b, s)).length = live.length - 1 :=
          List.length_erase_of_mem hm
        have hpos : 1 ≤ live.length := List.length_pos_of_mem hm
        simp only [VoxelMemoryPool.debug_get_used_blocks, VoxelMemoryPool.recycle] at hinv ⊢
        omega
      · rw [if_neg hm] at hrun
        exact absurd hrun (by simp)

/-- C7, witness: the round-trip at a concrete sequence — two allocations of
size 32 and one matching recycle leave one outstanding block, and the
diagnostic counter reports 1. -/
theorem claim_C7_witness :
    VoxelMemoryPool.create.debug_get_used_blocks = ([] : List (Nat × Nat)).length ∧
    runOpsChecked opsC7 VoxelMemoryPool.create [] =
      some (⟨[(32, [0])], 2, 1⟩, [(1, 32)]) ∧
    (⟨[(32, [0])], 2, 1⟩ : VoxelMemoryPool).debug_get_used_blocks =
      ([(1, 32)] : List (Nat × Nat)).length :=
  ⟨rfl, by decide,
   claim_C7 opsC7 VoxelMemoryPool.create [] (⟨[(32, [0])], 2, 1⟩, [(1, 32)]) rfl (by decide)⟩

/-! ## Idempotent block insertion (claims C4, C5) -/

/-- C4: on an absent entry, two `try_set_block_buffer` calls with buffers of
the configured block size both return true, the second call leaves the store
exactly as the first left it (no overwrite), and the single entry at that
(coordinate, LOD) holds the first buffer. -/
theorem claim_C4 (d : VoxelData) (bpos : Vector3i) (lod_index : Nat)
    (b1 b2 : VoxelBufferInternal) (e1 e2 : Bool)
    (h0 : (d.lods lod_index).blocks bpos = none)
    (h1 : b1.size = cubeV (d.lods lod_index).block_size)
    (h2 : b2.size = cubeV (d.lods lod_index).block_size) :
    (d.try_set_block_buffer bpos lod_index b1 e1).1 = true ∧
    ((d.try_set_block_buffer bpos lod_index b1 e1).2.try_set_block_buffer
        bpos lod_index b2 e2).1 = true ∧
    ((d.try_set_block_buffer bpos lod_index b1 e1).2.try_set_block_buffer
        bpos lod_index b2 e2).2 = (d.try_set_block_buffer bpos lod_index b1 e1).2 ∧
    ((d.try_set_block_buffer bpos lod_index b1 e1).2.lods lod_index).blocks bpos =
      some ⟨some b1, e1, false⟩ := by
  have hd1 : d.try_set_block_buffer bpos lod_index b1 e1 =
      (true, d.setBlock lod_index bpos ⟨some b1, e1, false⟩) := by
    unfold VoxelData.try_set_block_buffer
    rw [if_pos h1, h0]
  have hb1 : ((d.setBlock lod_index bpos ⟨some b1, e1, false⟩).lods lod_index).blocks bpos =
      some ⟨some b1, e1, false⟩ := by
    simp [VoxelData.setBlock]
  have hbs : ((d.setBlock lod_index bpos ⟨some b1, e1, false⟩).lods lod_index).block_size =
      (d.lods lod_index).block_size := by
    simp [VoxelData.setBlock, VoxelDataMap.block_size]
  have hd2 : (d.setBlock lod_index bpos ⟨some b1, e1, false⟩).try_set_block_buffer
      bpos lod_index b2 e2 = (true, d.setBlock lod_index bpos ⟨some b1, e1, false⟩) := by
    unfold VoxelData.try_set_block_buffer
    rw [if_pos (by rw [hbs]; exact h2), hb1]
  rw [hd1, hd2]
  exact ⟨rfl, rfl, rfl, hb1⟩

/-- C4, witness: the idempotent insertion at a concrete store, coordinate and
pair of well-sized buffers. -/
theorem claim_C4_witness :
    (VoxelData.new.lods 0).blocks ⟨1, 2, 3⟩ = none ∧
    (defaultBuffer 16).size = cubeV (VoxelData.new.lods 0).block_size ∧
    bufferC4b.size = cubeV (VoxelData.new.lods 0).block_size ∧
    ((VoxelData.new.try_set_block_buffer ⟨1, 2, 3⟩ 0 (defaultBuffer 16) true).1 = true ∧
     ((VoxelData.new.try_set_block_buffer ⟨1, 2, 3⟩ 0 (defaultBuffer 16) true).2.try_set_block_buffer
         ⟨1, 2, 3⟩ 0 bufferC4b false).1 = true ∧
     ((VoxelData.new.try_set_block_buffer ⟨1, 2, 3⟩ 0 (defaultBuffer 16) true).2.try_set_block_buffer
         ⟨1, 2, 3⟩ 0 bufferC4b false).2 =
       (VoxelData.new.try_set_block_buffer ⟨1, 2, 3⟩ 0 (defaultBuffer 16) true).2 ∧
     ((VoxelData.new.try_set_block_buffer ⟨1, 2, 3⟩ 0 (defaultBuffer 16) true).2.lods 0).blocks
         ⟨1, 2, 3⟩ = some ⟨some (defaultBuffer 16), true, false⟩) :=
  ⟨rfl, by decide, by decide,
   claim_C4 VoxelData.new ⟨1, 2, 3⟩ 0 (defaultBuffer 16) bufferC4b true false
     rfl (by decide) (by decide)⟩

/-- C5: `try_set_block_buffer` with a buffer whose size differs from the
configured block size returns false and leaves the store unchanged, and
`get_missing_blocks` still reports the (initially absent) coordinate as
missing afterwards. -/
theorem claim_C5 (d : VoxelData) (bpos : Vector3i) (lod_index : Nat)
    (buffer : VoxelBufferInternal) (e : Bool)
    (hsz : ¬ buffer.size = cubeV (d.lods lod_index).block_size)
    (h0 : (d.lods lod_index).blocks bpos = none) :
    (d.try_set_block_buffer bpos lod_index buffer e).1 = false ∧
    (d.try_set_block_buffer bpos lod_index buffer e).2 = d ∧
    (d.try_set_block_buffer bpos lod_index buffer e).2.get_missing_blocks [bpos] lod_index =
      [bpos] := by
  have h : d.try_set_block_buffer bpos lod_index buffer e = (false, d) := by
    unfold VoxelData.try_set_block_buffer
    rw [if_neg hsz]
  rw [h]
  refine ⟨rfl, rfl, ?_⟩
  simp [VoxelData.get_missing_blocks, h0]

/-- C5, witness: the rejection at a concrete store, coordinate and wrongly
sized buffer. -/
theorem claim_C5_witness :
    ¬ bufferC5.size = cubeV (VoxelData.new.lods 0).block_size ∧
    (VoxelData.new.lods 0).blocks ⟨0, 0, 0⟩ = none ∧
    ((VoxelData.new.try_set_block_buffer ⟨0, 0, 0⟩ 0 bufferC5 true).1 = false ∧
     (VoxelData.new.try_set_block_buffer ⟨0, 0, 0⟩ 0 bufferC5 true).2 = VoxelData.new ∧
     (VoxelData.new.try_set_block_buffer ⟨0, 0, 0⟩ 0 bufferC5 true).2.get_missing_blocks
        [⟨0, 0, 0⟩] 0 = [⟨0, 0, 0⟩]) :=
  ⟨by decide, rfl,
   claim_C5 VoxelData.new ⟨0, 0, 0⟩ 0 bufferC5 true (by decide) rfl⟩

/-! ## The point-access scenario (claim C6) -/

/-- C6, counterexample: in the scenario exactly as stated — sample bounds,
LOD count 1, no generator, no stream, and the constructed default
`streaming_enabled = true` — the write at (10,10,10) fails (the block is
absent and, under streaming, not editable) and the subsequent read returns the
default 0, not the written 5. -/
theorem claim_C6_counterexample :
    (voxelDataC6.try_set_voxel 5 ⟨10, 10, 10⟩ 0).1 = false ∧
    (voxelDataC6.try_set_voxel 5 ⟨10, 10, 10⟩ 0).2.get_voxel ⟨10, 10, 10⟩ 0 0 = 0 ∧
    (0 : Int) ≠ 5 :=
  ⟨by decide, by decide, by decide⟩

/-- C6, amended: after additionally disabling streaming
(`set_streaming_enabled(false)`), the scenario holds as stated: writing 5 at
(10,10,10) on channel 0 succeeds, reading it back returns 5, and the
neighbouring voxel (10,10,11) still reads the default 0. -/
theorem claim_C6_amended :
    (voxelDataC6s.try_set_voxel 5 ⟨10, 10, 10⟩ 0).1 = true ∧
    (voxelDataC6s.try_set_voxel 5 ⟨10, 10, 10⟩ 0).2.get_voxel ⟨10, 10, 10⟩ 0 0 = 5 ∧
    (voxelDataC6s.try_set_voxel 5 ⟨10, 10, 10⟩ 0).2.get_voxel ⟨10, 10, 11⟩ 0 0 = 0 :=
  ⟨by decide, by decide, by decide⟩

/-! ## Lemmas about `write_box` (claims C1, C2, C3) -/

theorem VoxelDataMap.write_box_blocks (m : VoxelDataMap) (vb : Box3i) (ch : Nat)
    (action : Vector3i → Int → Int)
    (gf : VoxelBufferInternal → Vector3i → VoxelBufferInternal) (q : Vector3i) :
    ((m.write_box vb ch action gf).1).blocks q =
      if (vb.downscaled m.block_size).contains q = true
      then some (writeBlockResult m.block_size vb ch action gf (m.blocks q) q)
      else m.blocks q := rfl

theorem VoxelDataMap.write_box_block_size (m : VoxelDataMap) (vb : Box3i) (ch : Nat)
    (action : Vector3i → Int → Int)
    (gf : VoxelBufferInternal → Vector3i → VoxelBufferInternal) :
    ((m.write_box vb ch action gf).1).block_size = m.block_size := rfl

theorem VoxelDataMap.write_box_events (m : VoxelDataMap) (vb : Box3i) (ch : Nat)
    (action : Vector3i → Int → Int)
    (gf : VoxelBufferInternal → Vector3i → VoxelBufferInternal) :
    (m.write_box vb ch action gf).2 =
      (vb.downscaled m.block_size).cellList.flatMap fun bpos =>
        writeBlockEvents m.block_size vb (m.blocks bpos) bpos := rfl

theorem VoxelData.storedValue_update_lod0 (d : VoxelData) (M : VoxelDataMap)
    (p : Vector3i) (ch : Nat) :
    ({ d with lods := fun i => if i = 0 then M else d.lods i } : VoxelData).storedValue p ch =
      (match M.blocks (p.fdivc M.block_size) with
       | some blk =>
         match blk.voxels with
         | some buf => some (buf.data ch (p - blockOrigin M.block_size (p.fdivc M.block_size)))
         | none => none
       | none => none) := rfl

theorem actionAt_mem_writeBlockEvents (bs : Int) (vb : Box3i)
    (blk : Option VoxelDataBlock) (bpos p : Vector3i)
    (h : WEvent.actionAt p ∈ writeBlockEvents bs vb blk bpos) :
    (vb.clipped (blockVoxelBox bs bpos)).contains p = true := by
  have h' : WEvent.actionAt p ∈
      (vb.clipped (blockVoxelBox bs bpos)).cellList.map WEvent.actionAt := by
    rcases blk with _ | b
    · simp only [writeBlockEvents] at h
      exact (List.mem_cons.mp h).resolve_left (by simp)
    · rcases hbv : b.voxels with _ | v
      · simp only [writeBlockEvents, hbv] at h
        exact (List.mem_cons.mp h).resolve_left (by simp)
      · simpa only [writeBlockEvents, hbv] using h
  rw [List.mem_map] at h'
  obtain ⟨q, hq, he⟩ := h'
  injection he with hqp
  subst hqp
  exact (Box3i.mem_cellList _ _).mp hq

theorem mem_writeBlockEvents_shape (bs : Int) (vb : Box3i)
    (blk : Option VoxelDataBlock) (bpos : Vector3i) (e : WEvent)
    (h : e ∈ writeBlockEvents bs vb blk bpos) :
    (∃ q, e = WEvent.actionAt q) ∨ (∃ bp, e = WEvent.genBlock bp) := by
  have hmap : ∀ l : List Vector3i, e ∈ l.map WEvent.actionAt → ∃ q, e = WEvent.actionAt q := by
    intro l hl
    rw [List.mem_map] at hl
    obtain ⟨q, _, hq⟩ := hl
    exact ⟨q, hq.symm⟩
  rcases blk with _ | b
  · simp only [writeBlockEvents] at h
    rcases List.mem_cons.mp h with h | h
    · exact Or.inr ⟨bpos, h⟩
    · exact Or.inl (hmap _ h)
  · rcases hbv : b.voxels with _ | v
    · simp only [writeBlockEvents, hbv] at h
      rcases List.mem_cons.mp h with h | h
      · exact Or.inr ⟨bpos, h⟩
      · exact Or.inl (hmap _ h)
    · simp only [writeBlockEvents, hbv] at h
      exact Or.inl (hmap _ h)

theorem VoxelData.write_box_of_loaded (d : VoxelData) (p_voxel_box : Box3i)
    (channel_index : Nat) (action : Vector3i → Int → Int)
    (hload : d.is_area_loaded (p_voxel_box.clipped d.get_bounds) = true) :
    d.write_box p_voxel_box channel_index action =
      (p_voxel_box.clipped d.get_bounds,
       { d with lods := fun i => if i = 0 then
             ((d.lods 0).write_box (p_voxel_box.clipped d.get_bounds) channel_index
               action d.genFunc).1
           else d.lods i },
       WEvent.lockWrite 0 ::
         (((d.lods 0).write_box (p_voxel_box.clipped d.get_bounds) channel_index
             action d.genFunc).2 ++ [WEvent.unlockWrite 0])) := by
  simp only [VoxelData.write_box]
  rw [if_neg (by rw [hload]; simp)]

/-! ## The unavailable-area gate (claim C1) -/

/-- C1, counterexample: with streaming disabled, a block of the clipped box
can be absent (not resident at LOD 0) while `write_box` still proceeds: it
returns the non-empty clipped box and synthesizes the block, refuting the
unconditional claim. -/
theorem claim_C1_counterexample :
    (voxelDataC1.lods 0).blocks ⟨0, 0, 0⟩ = none ∧
    ((boxC1.clipped voxelDataC1.get_bounds).downscaled
        (voxelDataC1.lods 0).block_size).contains ⟨0, 0, 0⟩ = true ∧
    (voxelDataC1.write_box boxC1 0 (fun _ v => v)).1 ≠ Box3i.empty ∧
    (((voxelDataC1.write_box boxC1 0 (fun _ v => v)).2.1.lods 0).blocks
        ⟨0, 0, 0⟩).isSome = true :=
  ⟨rfl, by decide, by decide, by decide⟩

/-- C1, amended: when streaming is enabled, if any block of the clipped box
`B ∩ bounds` is not resident at LOD 0 then `write_box` returns the empty box
`Box3i()`, the store is returned unchanged (every LOD map and voxel buffer is
untouched), and no event — no lock take, no synthesis, no action — occurs. -/
theorem claim_C1_amended (d : VoxelData) (p_voxel_box : Box3i) (channel_index : Nat)
    (action : Vector3i → Int → Int) (bpos : Vector3i)
    (hstream : d.streaming_enabled = true)
    (htouch : ((p_voxel_box.clipped d.get_bounds).downscaled
        (d.lods 0).block_size).contains bpos = true)
    (habs : (d.lods 0).blocks bpos = none) :
    d.write_box p_voxel_box channel_index action = (Box3i.empty, d, []) := by
  have hnl : d.is_area_loaded (p_voxel_box.clipped d.get_bounds) = false := by
    simp only [VoxelData.is_area_loaded, hstream]
    rw [if_neg (by simp)]
    rw [List.all_eq_false]
    refine ⟨bpos, (Box3i.mem_cellList _ _).mpr htouch, ?_⟩
    simp [habs]
  simp only [VoxelData.write_box]
  rw [if_pos (by rw [hnl])]

/-- C1, witness: the gate at a concrete streaming store with an absent block
under the written box. -/
theorem claim_C1_witness :
    voxelDataC1w.streaming_enabled = true ∧
    ((boxC1.clipped voxelDataC1w.get_bounds).downscaled
        (voxelDataC1w.lods 0).block_size).contains ⟨0, 0, 0⟩ = true ∧
    (voxelDataC1w.lods 0).blocks ⟨0, 0, 0⟩ = none ∧
    voxelDataC1w.write_box boxC1 0 (fun _ v => v) = (Box3i.empty, voxelDataC1w, []) :=
  ⟨rfl, by decide, rfl,
   claim_C1_amended voxelDataC1w boxC1 0 (fun _ v => v) ⟨0, 0, 0⟩ rfl (by decide) rfl⟩

/-! ## Bounds clipping (claim C2) -/

/-- C2: for a box that partially overlaps the configured bounds, a successful
`write_box` returns exactly the intersection `B ∩ bounds`, applies the
caller's action only at voxel positions inside that intersection, and leaves
the stored value of every buffered voxel outside the intersection unchanged. -/
theorem claim_C2 (d : VoxelData) (p_voxel_box : Box3i) (channel_index : Nat)
    (action : Vector3i → Int → Int)
    (hov : (p_voxel_box.clipped d.get_bounds).is_empty = false)
    (hpart : p_voxel_box.clipped d.get_bounds ≠ p_voxel_box)
    (hload : d.is_area_loaded (p_voxel_box.clipped d.get_bounds) = true) :
    (d.write_box p_voxel_box channel_index action).1 = p_voxel_box.clipped d.get_bounds ∧
    (∀ p, WEvent.actionAt p ∈ (d.write_box p_voxel_box channel_index action).2.2 →
      (p_voxel_box.clipped d.get_bounds).contains p = true) ∧
    (∀ p ch w, (p_voxel_box.clipped d.get_bounds).contains p = false →
      d.storedValue p ch = some w →
      (d.write_box p_voxel_box channel_index action).2.1.storedValue p ch = some w) := by
  rw [VoxelData.write_box_of_loaded d p_voxel_box channel_index action hload]
  refine ⟨rfl, ?_, ?_⟩
  · intro p hp
    simp only [VoxelDataMap.write_box_events] at hp
    rcases List.mem_cons.mp hp with h | h
    · exact absurd h (by simp)
    rcases List.mem_append.mp h with h | h
    · rw [List.mem_flatMap] at h
      obtain ⟨bpos, _, he⟩ := h
      have hc := actionAt_mem_writeBlockEvents _ _ _ _ _ he
      exact ((Box3i.contains_clipped_iff _ _ _).mp hc).1
    · exact absurd h (by simp)
  · intro p ch w hout hsv
    rcases hblk : (d.lods 0).blocks (d.voxel_to_block p) with _ | blk
    · simp only [VoxelData.storedValue, hblk] at hsv
      exact absurd hsv (by simp)
    rcases hbv : blk.voxels with _ | buf
    · simp only [VoxelData.storedValue, hblk, hbv] at hsv
      exact absurd hsv (by simp)
    simp only [VoxelData.storedValue, hblk, hbv, Option.some_inj] at hsv
    -- The result store: LOD 0 is the written map, block size unchanged.
    rw [VoxelData.storedValue_update_lod0]
    rw [VoxelDataMap.write_box_block_size]
    have hq : Vector3i.fdivc p (d.lods 0).block_size = d.voxel_to_block p := rfl
    rw [hq, VoxelDataMap.write_box_blocks, hblk]
    by_cases hin :
        (((p_voxel_box.clipped d.get_bounds).downscaled
          (d.lods 0).block_size).contains (d.voxel_to_block p)) = true
    · rw [if_pos hin]
      simp only [writeBlockResult, hbv, writeBuf]
      have hcond : ¬ (ch = channel_index ∧
          ((p_voxel_box.clipped d.get_bounds).clipped
            (blockVoxelBox (d.lods 0).block_size (d.voxel_to_block p))).contains
            (blockOrigin (d.lods 0).block_size (d.voxel_to_block p) +
              (p - blockOrigin (d.lods 0).block_size (d.voxel_to_block p))) = true) := by
        rintro ⟨-, hc⟩
        rw [Vector3i.add_sub_cancel, Box3i.contains_clipped_iff] at hc
        rw [hout] at hc
        exact absurd hc.1 (by simp)
      rw [if_neg hcond, hsv]
    · rw [if_neg hin]
      simp only [hbv, hsv]

/-- C2, witness: the clipping at a concrete store and a box reaching one voxel
outside the bounds. -/
theorem claim_C2_witness :
    (boxC2.clipped voxelDataC2.get_bounds).is_empty = false ∧
    boxC2.clipped voxelDataC2.get_bounds ≠ boxC2 ∧
    voxelDataC2.is_area_loaded (boxC2.clipped voxelDataC2.get_bounds) = true ∧
    ((voxelDataC2.write_box boxC2 0 (fun _ v => v)).1 =
        boxC2.clipped voxelDataC2.get_bounds ∧
     (∀ p, WEvent.actionAt p ∈ (voxelDataC2.write_box boxC2 0 (fun _ v => v)).2.2 →
        (boxC2.clipped voxelDataC2.get_bounds).contains p = true) ∧
     (∀ p ch w, (boxC2.clipped voxelDataC2.get_bounds).contains p = false →
        voxelDataC2.storedValue p ch = some w →
        (voxelDataC2.write_box boxC2 0 (fun _ v => v)).2.1.storedValue p ch = some w)) :=
  ⟨by decide, by decide, rfl,
   claim_C2 voxelDataC2 boxC2 0 (fun _ v => v) (by decide) (by decide) rfl⟩

/-! ## Block synthesis during `write_box` (claim C3) -/

/-- C3, counterexample: with a constant generator producing 7 and a modifier
adding 1 configured, a `write_box` that synthesizes an absent block stores the
plain generator output 7 — the modifier stack is not applied by the generation
callback (src/storage/voxel_data.h:123-128), although generator-plus-modifiers
evaluation of the same voxel gives 8. -/
theorem claim_C3_counterexample :
    (voxelDataC3.lods 0).blocks ⟨0, 0, 0⟩ = none ∧
    (voxelDataC3.write_box boxC3 0 (fun _ v => v)).2.1.storedValue ⟨0, 0, 0⟩ 0 = some 7 ∧
    applyModifiers voxelDataC3.modifiers 0 ⟨0, 0, 0⟩ (genC3.value 0 ⟨0, 0, 0⟩) = 8 ∧
    (7 : Int) ≠ 8 :=
  ⟨rfl, by decide, by decide, by decide⟩

/-- C3, amended: over a loaded area, every touched block that is absent is
synthesized by invoking the generator only — the modifier stack is not
applied — before the caller's action: the stored buffer holds, at each voxel,
the caller's action applied over the plain generator value inside the written
box and the plain generator value outside it, the block is cached non-edited,
and the whole mutation trace sits between taking and releasing the level-0
write lock. -/
theorem claim_C3_amended (d : VoxelData) (p_voxel_box : Box3i) (channel_index : Nat)
    (action : Vector3i → Int → Int) (g : VoxelGenerator) (bpos lp : Vector3i)
    (hg : d.generator = some g)
    (hload : d.is_area_loaded (p_voxel_box.clipped d.get_bounds) = true)
    (htouch : ((p_voxel_box.clipped d.get_bounds).downscaled
        (d.lods 0).block_size).contains bpos = true)
    (habs : (d.lods 0).blocks bpos = none)
    (hlx : 0 ≤ lp.x ∧ lp.x < (d.lods 0).block_size)
    (hly : 0 ≤ lp.y ∧ lp.y < (d.lods 0).block_size)
    (hlz : 0 ≤ lp.z ∧ lp.z < (d.lods 0).block_size) :
    (∃ buf : VoxelBufferInternal,
      ((d.write_box p_voxel_box channel_index action).2.1.lods 0).blocks bpos =
        some ⟨some buf, false, false⟩ ∧
      ∀ ch, buf.data ch lp =
        (if ch = channel_index ∧
            (p_voxel_box.clipped d.get_bounds).contains
              (blockOrigin (d.lods 0).block_size bpos + lp) = true
         then action (blockOrigin (d.lods 0).block_size bpos + lp)
                (g.value ch (blockOrigin (d.lods 0).block_size bpos + lp))
         else g.value ch (blockOrigin (d.lods 0).block_size bpos + lp))) ∧
    (∃ mid : List WEvent,
      (d.write_box p_voxel_box channel_index action).2.2 =
        WEvent.lockWrite 0 :: (mid ++ [WEvent.unlockWrite 0]) ∧
      ∀ e ∈ mid, (∃ q, e = WEvent.actionAt q) ∨ (∃ bp, e = WEvent.genBlock bp)) := by
  rw [VoxelData.write_box_of_loaded d p_voxel_box channel_index action hload]
  constructor
  · have hb : (((d.lods 0).write_box (p_voxel_box.clipped d.get_bounds) channel_index
        action d.genFunc).1).blocks bpos =
        some (writeBlockResult (d.lods 0).block_size (p_voxel_box.clipped d.get_bounds)
          channel_index action d.genFunc none bpos) := by
      rw [VoxelDataMap.write_box_blocks, if_pos htouch, habs]
    refine ⟨writeBuf (d.lods 0).block_size (p_voxel_box.clipped d.get_bounds)
      channel_index action bpos
      (d.genFunc (defaultBuffer (d.lods 0).block_size)
        (blockOrigin (d.lods 0).block_size bpos)), ?_, ?_⟩
    · show (((d.lods 0).write_box (p_voxel_box.clipped d.get_bounds) channel_index
          action d.genFunc).1).blocks bpos = _
      rw [hb]
      rfl
    · intro ch
      have hiff : (((p_voxel_box.clipped d.get_bounds).clipped
            (blockVoxelBox (d.lods 0).block_size bpos)).contains
            (blockOrigin (d.lods 0).block_size bpos + lp) = true) ↔
          ((p_voxel_box.clipped d.get_bounds).contains
            (blockOrigin (d.lods 0).block_size bpos + lp) = true) := by
        rw [Box3i.contains_clipped_iff]
        constructor
        · exact fun h => h.1
        · intro h
          refine ⟨h, ?_⟩
          rw [Box3i.contains_iff]
          simp only [blockVoxelBox, blockOrigin, cubeV, Vector3i.add_x, Vector3i.add_y,
            Vector3i.add_z]
          omega
      simp only [writeBuf]
      rw [if_congr (and_congr_right fun _ => hiff) rfl rfl]
      simp only [VoxelData.genFunc, hg, VoxelGenerator.generate_block]
  · refine ⟨((d.lods 0).write_box (p_voxel_box.clipped d.get_bounds) channel_index
        action d.genFunc).2, rfl, ?_⟩
    intro e he
    rw [VoxelDataMap.write_box_events, List.mem_flatMap] at he
    obtain ⟨bp, _, hee⟩ := he
    exact mem_writeBlockEvents_shape _ _ _ _ _ hee

/-- C3, witness: the amended synthesis property at the concrete store with
generator and modifier configured, the unit box at the origin, the identity
action and the block-local voxel (0,0,0). -/
theorem claim_C3_witness :
    voxelDataC3.generator = some genC3 ∧
    voxelDataC3.is_area_loaded (boxC3.clipped voxelDataC3.get_bounds) = true ∧
    ((boxC3.clipped voxelDataC3.get_bounds).downscaled
        (voxelDataC3.lods 0).block_size).contains ⟨0, 0, 0⟩ = true ∧
    (voxelDataC3.lods 0).blocks ⟨0, 0, 0⟩ = none ∧
    ((∃ buf : VoxelBufferInternal,
        ((voxelDataC3.write_box boxC3 0 (fun _ v => v)).2.1.lods 0).blocks ⟨0, 0, 0⟩ =
          some ⟨some buf, false, false⟩ ∧
        ∀ ch, buf.data ch ⟨0, 0, 0⟩ =
          (if ch = 0 ∧
              (boxC3.clipped voxelDataC3.get_bounds).contains
                (blockOrigin (voxelDataC3.lods 0).block_size ⟨0, 0, 0⟩ + ⟨0, 0, 0⟩) = true
           then (fun (_ : Vector3i) (v : Int) => v)
                  (blockOrigin (voxelDataC3.lods 0).block_size ⟨0, 0, 0⟩ + ⟨0, 0, 0⟩)
                  (genC3.value ch
                    (blockOrigin (voxelDataC3.lods 0).block_size ⟨0, 0, 0⟩ + ⟨0, 0, 0⟩))
           else genC3.value ch
                  (blockOrigin (voxelDataC3.lods 0).block_size ⟨0, 0, 0⟩ + ⟨0, 0, 0⟩))) ∧
     (∃ mid : List WEvent,
        (voxelDataC3.write_box boxC3 0 (fun _ v => v)).2.2 =
          WEvent.lockWrite 0 :: (mid ++ [WEvent.unlockWrite 0]) ∧
        ∀ e ∈ mid, (∃ q, e = WEvent.actionAt q) ∨ (∃ bp, e = WEvent.genBlock bp))) :=
  ⟨rfl, rfl, by decide, rfl,
   claim_C3_amended voxelDataC3 boxC3 0 (fun _ v => v) genC3 ⟨0, 0, 0⟩ ⟨0, 0, 0⟩
     rfl rfl (by decide) rfl (by decide) (by decide) (by decide)⟩

end GodotVoxel
